import Mathlib

/-!
Verification development for the python-dlt repository (bmwcarit/python-dlt).

The DLT storage frame codec, the fast sort-data extractor, the payload
argument parser, the broker dispatcher matching logic, the message-validity
checks, the file-index corruption recovery and the continuity checker are
shallowly embedded from the Python sources (src/dlt/dlt.py,
src/dlt/core/core_base.py, src/dlt/dlt_broker.py,
src/dlt/dlt_broker_handlers.py, src/dlt/helpers.py).

Bytes are modelled as natural numbers (one list element per byte), machine
integers as Nat/Int with explicit wrapping where the source wraps, Python
floats as exact rationals, and raising an exception as an error value.
-/

namespace PyDlt

/-- Slice of a byte list: the bytes at positions i, i+1, ..., i+n-1
(Python b[i:i+n], clamped at the end of the list exactly as Python slicing). -/
def slice (b : List Nat) (i n : Nat) : List Nat := (b.drop i).take n

/-- Little-endian value of a byte list (struct.unpack of an unsigned field). -/
def leVal : List Nat → Nat
  | [] => 0
  | x :: rest => x + 256 * leVal rest

/-- Big-endian value of a byte list (ctypes.BigEndianStructure fields and the
reverse-slice-then-little-endian-cast reads in extract_sort_data). -/
def beVal : List Nat → Nat
  | [] => 0
  | x :: rest => x * 256 ^ rest.length + beVal rest

/-- Two's-complement reinterpretation of a w-bit unsigned value as a signed
integer (ctypes.c_int32 for the storage header microseconds, struct "b h i q"
formats in the payload parser). -/
def asSigned (w : Nat) (n : Nat) : Int :=
  if n < 2 ^ (w - 1) then (n : Int) else (n : Int) - 2 ^ w

/-- Bytes of a ctypes char array up to the first NUL byte
(the .value read of a c_char * N field). -/
def takeUntilNul (l : List Nat) : List Nat := l.takeWhile (fun b => b ≠ 0)

/-- Python bytes.rstrip applied with the NUL byte: drop trailing zero bytes. -/
def rstripNul (l : List Nat) : List Nat := (l.reverse.dropWhile (fun b => b = 0)).reverse

/-- Decode of a byte list to a Python str (dlt.helpers.bytes_to_str; for the
ASCII bytes appearing in id and payload fields the UTF-8 decode is the
identity on code points). -/
def strOfBytes (l : List Nat) : String := String.mk (l.map Char.ofNat)

/-- Byte of a byte list at index i (0 past the end; the frames the claims
quantify over are long enough for every read). -/
def byteAt (b : List Nat) (i : Nat) : Nat := b.getD i 0

/-- Constant DLT_HTYP_UEH from dlt/core/core_base.py. -/
def DLT_HTYP_UEH : Nat := 0x01

/-- Constant DLT_HTYP_WEID from dlt/core/core_base.py. -/
def DLT_HTYP_WEID : Nat := 0x04

/-- Constant DLT_HTYP_WSID from dlt/core/core_base.py. -/
def DLT_HTYP_WSID : Nat := 0x08

/-- Constant DLT_HTYP_WTMS from dlt/core/core_base.py. -/
def DLT_HTYP_WTMS : Nat := 0x10

/-- Storage-header sync pattern bytes "DLT\x01". -/
def dltPattern : List Nat := [68, 76, 84, 1]

/-- Structure cDltStorageHeader from dlt/core/core_base.py: pattern bytes,
seconds (little-endian u32), microseconds (little-endian i32), ECU id bytes. -/
structure cDltStorageHeader where
  pattern : List Nat
  seconds : Nat
  microseconds : Int
  ecu : List Nat
  deriving Repr, DecidableEq

/-- Structure cDltStandardHeader from dlt/core/core_base.py (big-endian):
htyp flag byte, mcnt counter byte, len total length without storage header. -/
structure cDltStandardHeader where
  htyp : Nat
  mcnt : Nat
  len : Nat
  deriving Repr, DecidableEq

/-- Structure cDltStandardHeaderExtra from dlt/core/core_base.py. Fields that
are not selected by htyp keep the zero value dlt_message_init leaves there. -/
structure cDltStandardHeaderExtra where
  ecu : List Nat
  seid : Nat
  tmsp : Nat
  deriving Repr, DecidableEq

/-- Structure cDltExtendedHeader from dlt/core/core_base.py. -/
structure cDltExtendedHeader where
  msin : Nat
  noar : Nat
  apid : List Nat
  ctid : List Nat
  deriving Repr, DecidableEq

/-- Structure DLTMessage (dlt/dlt.py wrapping cDLTMessage): parsed headers
plus the retained header buffer (headersize bytes, storage header included)
and data buffer (datasize payload bytes). -/
structure DLTMessage where
  storageheader : cDltStorageHeader
  standardheader : cDltStandardHeader
  headerextra : cDltStandardHeaderExtra
  extendedheader : Option cDltExtendedHeader
  headersize : Nat
  datasize : Nat
  headerbuffer : List Nat
  databuffer : List Nat
  deriving Repr, DecidableEq

/-- Size of the header extras selected by the htyp flags (ECU id if WEID,
session id if WSID, timestamp if WTMS). -/
def headerExtraSize (htyp : Nat) : Nat :=
  (if htyp &&& DLT_HTYP_WEID ≠ 0 then 4 else 0) +
  (if htyp &&& DLT_HTYP_WSID ≠ 0 then 4 else 0) +
  (if htyp &&& DLT_HTYP_WTMS ≠ 0 then 4 else 0)

/-- Size of the extended header selected by UEH (msin + noar + apid + ctid). -/
def extHeaderSize (htyp : Nat) : Nat := if htyp &&& DLT_HTYP_UEH ≠ 0 then 10 else 0

/-- Declared standard-header length: big-endian u16 at frame offsets 18..19. -/
def stdLen (b : List Nat) : Nat := 256 * byteAt b 18 + byteAt b 19

/-- Message record assembled from a storage frame (field layout per the
spec's on-wire table; offsets are from the start of the stored frame). -/
def mkMessage (b : List Nat) : DLTMessage :=
  { storageheader :=
      { pattern := slice b 0 4
        seconds := leVal (slice b 4 4)
        microseconds := asSigned 32 (leVal (slice b 8 4))
        ecu := slice b 12 4 }
    standardheader := { htyp := byteAt b 16, mcnt := byteAt b 17, len := stdLen b }
    headerextra :=
      { ecu := if byteAt b 16 &&& DLT_HTYP_WEID ≠ 0 then slice b 20 4 else [0, 0, 0, 0]
        seid := if byteAt b 16 &&& DLT_HTYP_WSID ≠ 0 then
            beVal (slice b (20 + (if byteAt b 16 &&& DLT_HTYP_WEID ≠ 0 then 4 else 0)) 4)
          else 0
        tmsp := if byteAt b 16 &&& DLT_HTYP_WTMS ≠ 0 then
            beVal (slice b (20 + (if byteAt b 16 &&& DLT_HTYP_WEID ≠ 0 then 4 else 0) +
              (if byteAt b 16 &&& DLT_HTYP_WSID ≠ 0 then 4 else 0)) 4)
          else 0 }
    extendedheader := if byteAt b 16 &&& DLT_HTYP_UEH ≠ 0 then
        some
          { msin := byteAt b (20 + headerExtraSize (byteAt b 16))
            noar := byteAt b (21 + headerExtraSize (byteAt b 16))
            apid := slice b (22 + headerExtraSize (byteAt b 16)) 4
            ctid := slice b (26 + headerExtraSize (byteAt b 16)) 4 }
      else none
    headersize := 20 + headerExtraSize (byteAt b 16) + extHeaderSize (byteAt b 16)
    datasize := stdLen b - (4 + headerExtraSize (byteAt b 16) + extHeaderSize (byteAt b 16))
    headerbuffer := b.take (20 + headerExtraSize (byteAt b 16) + extHeaderSize (byteAt b 16))
    databuffer := slice b (20 + headerExtraSize (byteAt b 16) + extHeaderSize (byteAt b 16))
      (stdLen b - (4 + headerExtraSize (byteAt b 16) + extHeaderSize (byteAt b 16))) }

/-- Guard under which the read succeeds: the buffer holds the fixed headers,
the declared length covers all selected headers (datasize would otherwise be
negative) and the buffer holds the whole declared message. -/
def readOk (b : List Nat) : Prop :=
  20 ≤ b.length ∧
  4 + headerExtraSize (byteAt b 16) + extHeaderSize (byteAt b 16) ≤ stdLen b ∧
  16 + stdLen b ≤ b.length

instance (b : List Nat) : Decidable (readOk b) := by unfold readOk; infer_instance

/-- Modelled from the spec: DLTMessage.from_bytes (dlt/dlt.py) splits off the
16-byte storage header and then calls the native dlt_message_read, which is
not part of the repository sources. Per the spec's wire layout, the standard
header is read big-endian at offsets 16..19, the header extras follow for
each flag set in htyp, the extended header (msin, noar, apid, ctid) follows
when UEH is set, and the read fails when the declared length is shorter than
the headers it selects (datasize would be negative) or the buffer is shorter
than the declared total. The message retains headersize bytes of header
buffer and datasize bytes of data buffer. Serial-header resynchronisation is
not modelled (the callers pass resync = 0). -/
def DLTMessage.from_bytes (b : List Nat) : Option DLTMessage :=
  if readOk b then some (mkMessage b) else none

/-- Method DLTMessage.to_bytes (dlt/dlt.py): the header buffer of headersize
bytes followed by the data buffer of datasize bytes. -/
def DLTMessage.to_bytes (m : DLTMessage) : List Nat := m.headerbuffer ++ m.databuffer

/-- Property DLTMessage.apid (dlt/dlt.py): the extended-header application id
decoded to a string (ctypes reads the char array up to the first NUL byte),
or the empty string when there is no extended header. -/
def DLTMessage.apid (m : DLTMessage) : String :=
  match m.extendedheader with
  | some e => strOfBytes (takeUntilNul e.apid)
  | none => ""

/-- Property DLTMessage.ctid (dlt/dlt.py): extended-header context id, or the
empty string when there is no extended header. -/
def DLTMessage.ctid (m : DLTMessage) : String :=
  match m.extendedheader with
  | some e => strOfBytes (takeUntilNul e.ctid)
  | none => ""

/-- Property DLTMessage.tmsp (dlt/dlt.py): header-extra timestamp in tenths
of milliseconds divided by 10000 when WTMS is set, otherwise 0. -/
def DLTMessage.tmsp (m : DLTMessage) : ℚ :=
  if m.standardheader.htyp &&& DLT_HTYP_WTMS ≠ 0 then (m.headerextra.tmsp : ℚ) / 10000 else 0

/-- Property DLTMessage.seid (dlt/dlt.py): header-extra session id when WSID
is set, otherwise 0. -/
def DLTMessage.seid (m : DLTMessage) : Nat :=
  if m.standardheader.htyp &&& DLT_HTYP_WSID ≠ 0 then m.headerextra.seid else 0

/-- Property DLTMessage.mcnt (dlt/dlt.py): standard-header message counter. -/
def DLTMessage.mcnt (m : DLTMessage) : Nat := m.standardheader.mcnt

/-- Property DLTMessage.ecuid (dlt/dlt.py): the storage-header ECU id when
non-empty (Python truthiness on the bytes), else the header-extra ECU id. -/
def DLTMessage.ecuid (m : DLTMessage) : String :=
  if takeUntilNul m.storageheader.ecu ≠ [] then strOfBytes (takeUntilNul m.storageheader.ecu)
  else strOfBytes (takeUntilNul m.headerextra.ecu)

/-- Count of decimal digits of n, via repeated division by 10 with a fuel
argument for structural recursion (0 prints as one digit). -/
def digitsLenAux : Nat → Nat → Nat
  | 0, _ => 1
  | fuel + 1, n => if n < 10 then 1 else 1 + digitsLenAux fuel (n / 10)

/-- Count of decimal digits of the Python decimal rendering of n. -/
def digits10 (n : Nat) : Nat := digitsLenAux n n

/-- Value of DLTMessage.storage_timestamp (dlt/dlt.py), which evaluates
float of the string "seconds.microseconds" built with str.format: the decimal
value of that string is seconds plus microseconds scaled by ten to the number
of digits of its decimal rendering. -/
def storage_timestamp_val (seconds microseconds : Nat) : ℚ :=
  (seconds : ℚ) + (microseconds : ℚ) / 10 ^ digits10 microseconds

/-- Property DLTMessage.storage_timestamp (dlt/dlt.py): none models the
ValueError float raises when a negative microseconds field makes the
formatted string "S.-M" unparsable. -/
def DLTMessage.storage_timestamp (m : DLTMessage) : Option ℚ :=
  if m.storageheader.microseconds < 0 then none
  else some (storage_timestamp_val m.storageheader.seconds m.storageheader.microseconds.toNat)

/-- Static method DLTMessage.extract_sort_data (dlt/dlt.py), translated
line by line: htyp is the byte at offset 16; the length is the big-endian
u16 at 18..19 plus the 16 storage-header bytes; offsets shrink by 4 for a
missing ECU id and by 4 for a missing session id (the source adjusts for
WEID and WSID only); the timestamp is the big-endian u32 ending at offset
31 - woff divided by 10000; apid and ctid are the NUL-right-stripped 4-byte
slices ending at offsets 38 - woff and 42 - woff when UEH is set. The
reversed Python slices fed to a little-endian cast are written here as
big-endian reads of the straight slices. -/
def extract_sort_data (data : List Nat) : ℚ × Nat × String × String :=
  let htyp_data := byteAt data 16
  let len_value := 256 * byteAt data 18 + byteAt data 19 + 16
  let woff := (if htyp_data &&& DLT_HTYP_WEID ≠ 0 then 0 else 4) +
    (if htyp_data &&& DLT_HTYP_WSID ≠ 0 then 0 else 4)
  let tmsp_value : ℚ := if htyp_data &&& DLT_HTYP_WTMS ≠ 0 then
      (beVal (slice data (28 - woff) 4) : ℚ) / 10000
    else 0
  let apid := if htyp_data &&& DLT_HTYP_UEH ≠ 0 then
      strOfBytes (rstripNul (slice data (34 - woff) 4))
    else ""
  let ctid := if htyp_data &&& DLT_HTYP_UEH ≠ 0 then
      strOfBytes (rstripNul (slice data (38 - woff) 4))
    else ""
  (tmsp_value, len_value, apid, ctid)

/-- Well-formed storage-format frame: the decode succeeds and the byte string
is exactly one frame (16 storage-header bytes plus the declared standard
header length). -/
def wellformed_frame (b : List Nat) : Bool :=
  match DLTMessage.from_bytes b with
  | some m => b.length == 16 + m.standardheader.len
  | none => false

/-- Claim C1: frame round-trip. For every well-formed DLT storage-format byte
string b, decoding it into a message and re-encoding it returns exactly b:
to_bytes emits the headersize-byte header buffer followed by the
datasize-byte data buffer, and these are exactly the frame's bytes. -/
theorem claim_C1_frame_round_trip (b : List Nat) (h : wellformed_frame b = true) :
    (DLTMessage.from_bytes b).map DLTMessage.to_bytes = some b := by
  unfold wellformed_frame DLTMessage.from_bytes at h
  by_cases hok : readOk b
  · rw [if_pos hok] at h
    simp only [beq_iff_eq] at h
    unfold DLTMessage.from_bytes
    rw [if_pos hok]
    rw [show Option.map DLTMessage.to_bytes (some (mkMessage b)) =
      some (mkMessage b).to_bytes from rfl]
    congr 1
    unfold DLTMessage.to_bytes mkMessage slice
    simp only
    rw [← List.take_add]
    obtain ⟨h20, hfit, hbuf⟩ := hok
    have hstd : (mkMessage b).standardheader.len = stdLen b := rfl
    rw [hstd] at h
    have hsum : 20 + headerExtraSize (byteAt b 16) + extHeaderSize (byteAt b 16) +
        (stdLen b - (4 + headerExtraSize (byteAt b 16) + extHeaderSize (byteAt b 16))) =
        b.length := by omega
    rw [hsum, List.take_length]
  · rw [if_neg hok] at h
    simp at h

/-- Witness for C1: the 48-byte connection-info control frame from the
repository's unit tests is a well-formed frame, and the theorem applies. -/
theorem claim_C1_witness :
    wellformed_frame [68, 76, 84, 1, 49, 217, 80, 89, 40, 60, 8, 0, 77, 71, 72, 83,
      53, 0, 0, 32, 77, 71, 72, 83, 0, 0, 150, 133, 38, 1, 68, 65, 49, 0, 68, 67, 49, 0,
      2, 15, 0, 0, 0, 2, 0, 0, 0, 0] = true ∧
    (DLTMessage.from_bytes [68, 76, 84, 1, 49, 217, 80, 89, 40, 60, 8, 0, 77, 71, 72, 83,
      53, 0, 0, 32, 77, 71, 72, 83, 0, 0, 150, 133, 38, 1, 68, 65, 49, 0, 68, 67, 49, 0,
      2, 15, 0, 0, 0, 2, 0, 0, 0, 0]).map DLTMessage.to_bytes =
    some [68, 76, 84, 1, 49, 217, 80, 89, 40, 60, 8, 0, 77, 71, 72, 83,
      53, 0, 0, 32, 77, 71, 72, 83, 0, 0, 150, 133, 38, 1, 68, 65, 49, 0, 68, 67, 49, 0,
      2, 15, 0, 0, 0, 2, 0, 0, 0, 0] :=
  ⟨by decide, claim_C1_frame_round_trip _ (by decide)⟩

/-- Claim C2 (amended): fast-path consistency of extract_sort_data with the
full decode, for every flag combination in which WTMS is set or UEH is clear
(the source adjusts the apid/ctid offsets for missing WEID/WSID but not for a
missing WTMS timestamp): the result is the header-extra timestamp in tenths
of milliseconds divided by 10000 (0 when WTMS is clear), 16 plus the
big-endian u16 length at offsets 18..19 (which is the frame length), and the
NUL-stripped extended-header ids when UEH is set (empty strings when clear). -/
theorem claim_C2_amended (b : List Nat) (m : DLTMessage)
    (hdec : DLTMessage.from_bytes b = some m)
    (hexact : b.length = 16 + m.standardheader.len)
    (hflags : m.standardheader.htyp &&& DLT_HTYP_WTMS ≠ 0 ∨
      m.standardheader.htyp &&& DLT_HTYP_UEH = 0) :
    extract_sort_data b = (m.tmsp, b.length,
      (match m.extendedheader with
        | some e => strOfBytes (rstripNul e.apid)
        | none => ""),
      (match m.extendedheader with
        | some e => strOfBytes (rstripNul e.ctid)
        | none => "")) := by
  unfold DLTMessage.from_bytes at hdec
  by_cases hok : readOk b
  case neg => rw [if_neg hok] at hdec; exact absurd hdec (by simp)
  rw [if_pos hok] at hdec
  injection hdec with hm
  subst hm
  simp only [mkMessage] at hexact hflags ⊢
  by_cases hweid : byteAt b 16 &&& DLT_HTYP_WEID = 0 <;>
    by_cases hwsid : byteAt b 16 &&& DLT_HTYP_WSID = 0 <;>
    by_cases hwtms : byteAt b 16 &&& DLT_HTYP_WTMS = 0 <;>
    by_cases hueh : byteAt b 16 &&& DLT_HTYP_UEH = 0 <;>
    simp only [hweid, hwsid, hwtms, hueh, ne_eq, not_true_eq_false, not_false_eq_true,
      if_true, if_false, false_or, or_false] at hflags ⊢ <;>
    simp [extract_sort_data, DLTMessage.tmsp, headerExtraSize, extHeaderSize, stdLen,
      hweid, hwsid, hwtms, hueh, hexact] <;>
    omega

/-- Witness for C2: the connection-info test frame (WEID, WTMS and UEH set)
satisfies the hypotheses, and the fast path agrees with the decode. -/
theorem claim_C2_witness :
    DLTMessage.from_bytes [68, 76, 84, 1, 49, 217, 80, 89, 40, 60, 8, 0, 77, 71, 72, 83,
      53, 0, 0, 32, 77, 71, 72, 83, 0, 0, 150, 133, 38, 1, 68, 65, 49, 0, 68, 67, 49, 0,
      2, 15, 0, 0, 0, 2, 0, 0, 0, 0] =
      some (mkMessage [68, 76, 84, 1, 49, 217, 80, 89, 40, 60, 8, 0, 77, 71, 72, 83,
        53, 0, 0, 32, 77, 71, 72, 83, 0, 0, 150, 133, 38, 1, 68, 65, 49, 0, 68, 67, 49, 0,
        2, 15, 0, 0, 0, 2, 0, 0, 0, 0]) ∧
    extract_sort_data [68, 76, 84, 1, 49, 217, 80, 89, 40, 60, 8, 0, 77, 71, 72, 83,
      53, 0, 0, 32, 77, 71, 72, 83, 0, 0, 150, 133, 38, 1, 68, 65, 49, 0, 68, 67, 49, 0,
      2, 15, 0, 0, 0, 2, 0, 0, 0, 0] =
      ((mkMessage [68, 76, 84, 1, 49, 217, 80, 89, 40, 60, 8, 0, 77, 71, 72, 83,
        53, 0, 0, 32, 77, 71, 72, 83, 0, 0, 150, 133, 38, 1, 68, 65, 49, 0, 68, 67, 49, 0,
        2, 15, 0, 0, 0, 2, 0, 0, 0, 0]).tmsp,
       (48 : Nat),
       (match (mkMessage [68, 76, 84, 1, 49, 217, 80, 89, 40, 60, 8, 0, 77, 71, 72, 83,
          53, 0, 0, 32, 77, 71, 72, 83, 0, 0, 150, 133, 38, 1, 68, 65, 49, 0, 68, 67, 49, 0,
          2, 15, 0, 0, 0, 2, 0, 0, 0, 0]).extendedheader with
         | some e => strOfBytes (rstripNul e.apid)
         | none => ""),
       (match (mkMessage [68, 76, 84, 1, 49, 217, 80, 89, 40, 60, 8, 0, 77, 71, 72, 83,
          53, 0, 0, 32, 77, 71, 72, 83, 0, 0, 150, 133, 38, 1, 68, 65, 49, 0, 68, 67, 49, 0,
          2, 15, 0, 0, 0, 2, 0, 0, 0, 0]).extendedheader with
         | some e => strOfBytes (rstripNul e.ctid)
         | none => "")) :=
  ⟨by decide,
   claim_C2_amended _ _ (by decide) (by decide) (by decide)⟩

/-- Counterexample for C2 as frozen: on a frame with UEH set but WTMS clear
(htyp = 0x01, apid AAAA, ctid BBBB, payload PPPPPPPP) the source does not
shift the id offsets for the missing timestamp, so extract_sort_data returns
the ctid field as apid and payload bytes as ctid, differing from the decoded
message's NUL-stripped ids. -/
theorem claim_C2_counterexample :
    ∃ m, DLTMessage.from_bytes [68, 76, 84, 1, 0, 0, 0, 0, 0, 0, 0, 0, 69, 67, 85, 49,
        1, 0, 0, 22, 0, 0, 65, 65, 65, 65, 66, 66, 66, 66,
        80, 80, 80, 80, 80, 80, 80, 80] = some m ∧
      (List.length [68, 76, 84, 1, 0, 0, 0, 0, 0, 0, 0, 0, 69, 67, 85, 49,
        1, 0, 0, 22, 0, 0, 65, 65, 65, 65, 66, 66, 66, 66,
        80, 80, 80, 80, 80, 80, 80, 80] : Nat) = 16 + m.standardheader.len ∧
      extract_sort_data [68, 76, 84, 1, 0, 0, 0, 0, 0, 0, 0, 0, 69, 67, 85, 49,
        1, 0, 0, 22, 0, 0, 65, 65, 65, 65, 66, 66, 66, 66,
        80, 80, 80, 80, 80, 80, 80, 80] ≠
      (m.tmsp,
       (List.length [68, 76, 84, 1, 0, 0, 0, 0, 0, 0, 0, 0, 69, 67, 85, 49,
        1, 0, 0, 22, 0, 0, 65, 65, 65, 65, 66, 66, 66, 66,
        80, 80, 80, 80, 80, 80, 80, 80] : Nat),
       (match m.extendedheader with
         | some e => strOfBytes (rstripNul e.apid)
         | none => ""),
       (match m.extendedheader with
         | some e => strOfBytes (rstripNul e.ctid)
         | none => "")) :=
  ⟨mkMessage [68, 76, 84, 1, 0, 0, 0, 0, 0, 0, 0, 0, 69, 67, 85, 49,
      1, 0, 0, 22, 0, 0, 65, 65, 65, 65, 66, 66, 66, 66,
      80, 80, 80, 80, 80, 80, 80, 80], by decide, by decide, by decide⟩

theorem digitsLenAux_le (fuel : Nat) : ∀ n k : Nat, 1 ≤ k → n < 10 ^ k →
    digitsLenAux fuel n ≤ k := by
  induction fuel with
  | zero => intro n k hk _; simpa [digitsLenAux] using hk
  | succ fuel ih =>
    intro n k hk hn
    unfold digitsLenAux
    by_cases hsmall : n < 10
    · simpa [hsmall] using hk
    · rw [if_neg hsmall]
      have hk2 : 2 ≤ k := by
        by_contra hlt
        have hk1 : k = 1 := by omega
        subst hk1
        simp only [pow_one] at hn
        exact hsmall hn
      have hdiv : n / 10 < 10 ^ (k - 1) := by
        rw [Nat.div_lt_iff_lt_mul (by norm_num)]
        calc n < 10 ^ k := hn
        _ = 10 ^ (k - 1) * 10 := by
          rw [← pow_succ]
          congr 1
          omega
      have hrec := ih (n / 10) (k - 1) (by omega) hdiv
      omega

/-- Claim C10: storage_timestamp is built by decimal-text concatenation, so a
microseconds value with d < 6 digits contributes m / 10 ^ d, not m / 10 ^ 6
(seconds 10 with microseconds 5 gives 10.5). For every decoded message with a
non-negative microseconds field the property returns exactly that value. -/
theorem claim_C10_storage_timestamp_concat :
    (∀ m : DLTMessage, 0 ≤ m.storageheader.microseconds →
      m.storage_timestamp = some (storage_timestamp_val m.storageheader.seconds
        m.storageheader.microseconds.toNat)) ∧
    (∀ s mi : Nat, storage_timestamp_val s mi = (s : ℚ) + (mi : ℚ) / 10 ^ digits10 mi) ∧
    (∀ s mi : Nat, 0 < mi → mi < 100000 →
      storage_timestamp_val s mi ≠ (s : ℚ) + (mi : ℚ) / 10 ^ 6) ∧
    storage_timestamp_val 10 5 = (21 / 2 : ℚ) := by
  refine ⟨?_, fun s mi => rfl, ?_, ?_⟩
  · intro m hm
    unfold DLTMessage.storage_timestamp
    rw [if_neg (by omega)]
  · intro s mi hpos hlt
    have hd : digits10 mi ≤ 5 := digitsLenAux_le mi mi 5 (by norm_num) (by norm_num; omega)
    have hpow : (10 : ℚ) ^ digits10 mi < 10 ^ 6 := by
      apply pow_lt_pow_right₀ (by norm_num)
      omega
    have hlt2 : (mi : ℚ) / 10 ^ 6 < (mi : ℚ) / 10 ^ digits10 mi := by
      apply div_lt_div_of_pos_left
      · exact_mod_cast hpos
      · positivity
      · exact hpow
    unfold storage_timestamp_val
    intro heq
    have hcancel := add_left_cancel heq
    linarith
  · have h5 : digits10 5 = 1 := rfl
    unfold storage_timestamp_val
    rw [h5]
    norm_num

/-- Witness for C10: at seconds 10 and microseconds 5 the hypotheses hold and
the value differs from the microsecond-scaled reading. -/
theorem claim_C10_witness :
    0 < 5 ∧ 5 < 100000 ∧
      storage_timestamp_val 10 5 ≠ ((10 : Nat) : ℚ) + ((5 : Nat) : ℚ) / 10 ^ 6 :=
  ⟨by norm_num, by norm_num,
   claim_C10_storage_timestamp_concat.2.2.1 10 5 (by norm_num) (by norm_num)⟩

/-- Constant DLT_MSIN_VERB from dlt/core/core_base.py. -/
def DLT_MSIN_VERB : Nat := 0x01

/-- Constant DLT_MSIN_MSTP from dlt/core/core_base.py. -/
def DLT_MSIN_MSTP : Nat := 0x0E

/-- Constant DLT_MSIN_MTIN from dlt/core/core_base.py. -/
def DLT_MSIN_MTIN : Nat := 0xF0

/-- Constant DLT_TYPE_CONTROL from dlt/core/core_base.py. -/
def DLT_TYPE_CONTROL : Nat := 0x03

/-- Constant DLT_CONTROL_RESPONSE from dlt/core/core_base.py. -/
def DLT_CONTROL_RESPONSE : Nat := 0x02

/-- Constant DLT_MSIN_CONTROL_RESPONSE from dlt/core/core_base.py. -/
def DLT_MSIN_CONTROL_RESPONSE : Nat := 0x26

/-- Control service id constants from dlt/core/core_base.py. -/
def DLT_SERVICE_ID_GET_SOFTWARE_VERSION : Nat := 0x13

/-- Service id 0xF01 unregister_context. -/
def DLT_SERVICE_ID_UNREGISTER_CONTEXT : Nat := 0xF01

/-- Service id 0xF02 connection_info. -/
def DLT_SERVICE_ID_CONNECTION_INFO : Nat := 0xF02

/-- Service id 0xF03 timezone. -/
def DLT_SERVICE_ID_TIMEZONE : Nat := 0xF03

/-- Service id 0xF04 marker. -/
def DLT_SERVICE_ID_MARKER : Nat := 0xF04

/-- Connection state 1 from dlt/core/core_base.py. -/
def DLT_CONNECTION_STATUS_DISCONNECTED : Nat := 0x01

/-- Connection state 2 from dlt/core/core_base.py. -/
def DLT_CONNECTION_STATUS_CONNECTED : Nat := 0x02

/-- Table qDltCtrlServiceId from dlt/core/core_base.py (21 entries). -/
def qDltCtrlServiceId : List String :=
  ["", "set_log_level", "set_trace_status", "get_log_info", "get_default_log_level",
   "store_config", "reset_to_factory_default", "set_com_interface_status",
   "set_com_interface_max_bandwidth", "set_verbose_mode", "set_message_filtering",
   "set_timing_packets", "get_local_time", "use_ecu_id", "use_session_id",
   "use_timestamp", "use_extended_header", "set_default_log_level",
   "set_default_trace_status", "get_software_version", "message_buffer_overflow"]

/-- Table qDltCtrlReturnType from dlt/core/core_base.py (9 entries). -/
def qDltCtrlReturnType : List String :=
  ["ok", "not_supported", "error", "3", "4", "5", "6", "7", "no_matching_context_id"]

/-- Property DLTMessage.noar (dlt/dlt.py): the extended-header argument count
when the extended header is in use and the message is verbose, otherwise 0.
(The decoder produces an extended header exactly when UEH is set.) -/
def DLTMessage.noar (m : DLTMessage) : Nat :=
  match m.extendedheader with
  | some e => if m.standardheader.htyp &&& DLT_HTYP_UEH ≠ 0 ∧ e.msin &&& DLT_MSIN_VERB ≠ 0
      then e.noar else 0
  | none => 0

/-- Property MessageMode.ctrl_service_id (dlt/core/core_base.py): the
little-endian u32 at the start of the payload for control messages with at
least 4 payload bytes, else 0. The source tests htyp, not msin, against
DLT_TYPE_CONTROL. -/
def ctrl_service_id (m : DLTMessage) : Nat :=
  if m.standardheader.htyp &&& DLT_TYPE_CONTROL ≠ 0 ∧ 4 ≤ m.datasize then
    leVal (slice m.databuffer 0 4)
  else 0

/-- Property MessageMode.ctrl_service_id_string (dlt/core/core_base.py). -/
def ctrl_service_id_string (m : DLTMessage) : String :=
  if ctrl_service_id m = DLT_SERVICE_ID_UNREGISTER_CONTEXT then "unregister_context"
  else if ctrl_service_id m = DLT_SERVICE_ID_CONNECTION_INFO then "connection_info"
  else if ctrl_service_id m = DLT_SERVICE_ID_TIMEZONE then "timezone"
  else if ctrl_service_id m = DLT_SERVICE_ID_MARKER then "marker"
  else if ctrl_service_id m ≤ 20 then qDltCtrlServiceId.getD (ctrl_service_id m) "" else ""

/-- Property MessageMode.ctrl_return_type (dlt/core/core_base.py): payload
byte 4 for control response messages with at least 6 payload bytes, else 0.
Both type tests read htyp as in the source. -/
def ctrl_return_type (m : DLTMessage) : Nat :=
  if m.standardheader.htyp &&& DLT_TYPE_CONTROL ≠ 0 ∧
      m.standardheader.htyp &&& DLT_MSIN_CONTROL_RESPONSE ≠ 0 ∧ 6 ≤ m.datasize then
    byteAt m.databuffer 4
  else 0

/-- Property MessageMode.ctrl_return_type_string (dlt/core/core_base.py). -/
def ctrl_return_type_string (m : DLTMessage) : String :=
  if ctrl_return_type m ≤ 8 then qDltCtrlReturnType.getD (ctrl_return_type m) "" else ""

/-- Property MessageMode.message_id (dlt/core/core_base.py): the little-endian
u32 at the start of the payload for non-verbose messages with at least 4
payload bytes, else 0 (given the extended header e carrying the verbose bit). -/
def message_id (m : DLTMessage) (e : cDltExtendedHeader) : Nat :=
  if e.msin &&& DLT_MSIN_VERB = 0 ∧ 4 ≤ m.datasize then leVal (slice m.databuffer 0 4) else 0

/-- Property MessageMode.message_id_string (dlt/core/core_base.py): the table
entry for ids up to 20; the source's bound check uses the table length 21
inclusively, so id 21 raises IndexError (modelled as none); larger ids give
the empty string. -/
def message_id_string (m : DLTMessage) (e : cDltExtendedHeader) : Option String :=
  if message_id m e ≤ 20 then some (qDltCtrlServiceId.getD (message_id m e) "")
  else if message_id m e = 21 then none
  else some ""

/-- Rendered payload: text for the branches the Python code builds itself;
textAndNative / nonverboseNative / native for the branches that delegate all
or part of the text to the native dlt_message_payload call, which is outside
the repository sources (no claim depends on the delegated text). -/
inductive DecodedPayload where
  | text : String → DecodedPayload
  | textAndNative : String → DecodedPayload
  | nonverboseNative : String → DecodedPayload
  | native : DecodedPayload
  deriving Repr, DecidableEq

/-- Property MessageMode.payload_decoded (dlt/core/core_base.py), branch by
branch. Accessing the verbose bit without an extended header raises
AttributeError in the source, modelled as none; the message_id_string
IndexError propagates the same way. -/
def payload_decoded (m : DLTMessage) : Option DecodedPayload :=
  match m.extendedheader with
  | none => none
  | some e =>
    if e.msin &&& DLT_MSIN_VERB = 0 ∧ m.standardheader.htyp &&& DLT_TYPE_CONTROL = 0 ∧
        m.noar = 0 then
      match message_id_string m e with
      | none => none
      | some s => some (.nonverboseNative s)
    else if (e.msin &&& DLT_MSIN_MSTP) >>> 1 = DLT_TYPE_CONTROL ∧
        (e.msin &&& DLT_MSIN_MTIN) >>> 4 = DLT_CONTROL_RESPONSE then
      if ctrl_service_id m = DLT_SERVICE_ID_MARKER then some (.text "MARKER")
      else if ctrl_service_id m = DLT_SERVICE_ID_GET_SOFTWARE_VERSION then
        some (.text ("[" ++ ctrl_service_id_string m ++ " " ++ ctrl_return_type_string m ++
          "] " ++ strOfBytes (rstripNul (m.databuffer.drop 9))))
      else if ctrl_service_id m = DLT_SERVICE_ID_CONNECTION_INFO then
        if m.datasize = 10 then
          some (.text ("[" ++ ctrl_service_id_string m ++ " " ++ ctrl_return_type_string m ++
            "] " ++
            (if byteAt m.databuffer 5 = DLT_CONNECTION_STATUS_DISCONNECTED then "disconnected"
             else if byteAt m.databuffer 5 = DLT_CONNECTION_STATUS_CONNECTED then "connected"
             else "unknown") ++ " " ++ strOfBytes (rstripNul (slice m.databuffer 6 4))))
        else
          some (.text ("[" ++ ctrl_service_id_string m ++ " " ++ ctrl_return_type_string m ++
            "] " ++ strOfBytes (rstripNul (slice m.databuffer 5 256))))
      else if ctrl_service_id m = DLT_SERVICE_ID_TIMEZONE then
        some (.text ("[" ++ ctrl_service_id_string m ++ " " ++ ctrl_return_type_string m ++
          "] " ++ strOfBytes (rstripNul (slice m.databuffer 5 256))))
      else
        some (.textAndNative ("[" ++ ctrl_service_id_string m ++ " " ++
          ctrl_return_type_string m ++ "] "))
    else if (e.msin &&& DLT_MSIN_MSTP) >>> 1 = DLT_TYPE_CONTROL then
      some (.text ("[" ++ ctrl_service_id_string m ++ "] " ++
        strOfBytes (rstripNul (slice m.databuffer 4 256))))
    else some .native

/-- Claim C7 (amended): decoding the 48-byte storage frame of the repository's
test_from_bytes_control yields apid DA1, ctid DC1, ecuid MGHS, tmsp 3.8533
seconds, storage timestamp 1498470705.539688, and a decoded payload of
"[connection_info ok] connected " — with a trailing space, because the
connection-info branch always appends a space plus the NUL-stripped comid,
which is empty here (the repository's own test asserts the same trailing
space). -/
theorem claim_C7_amended :
    ((DLTMessage.from_bytes [68, 76, 84, 1, 49, 217, 80, 89, 40, 60, 8, 0, 77, 71, 72, 83,
      53, 0, 0, 32, 77, 71, 72, 83, 0, 0, 150, 133, 38, 1, 68, 65, 49, 0, 68, 67, 49, 0,
      2, 15, 0, 0, 0, 2, 0, 0, 0, 0]).map DLTMessage.apid = some "DA1") ∧
    ((DLTMessage.from_bytes [68, 76, 84, 1, 49, 217, 80, 89, 40, 60, 8, 0, 77, 71, 72, 83,
      53, 0, 0, 32, 77, 71, 72, 83, 0, 0, 150, 133, 38, 1, 68, 65, 49, 0, 68, 67, 49, 0,
      2, 15, 0, 0, 0, 2, 0, 0, 0, 0]).map DLTMessage.ctid = some "DC1") ∧
    ((DLTMessage.from_bytes [68, 76, 84, 1, 49, 217, 80, 89, 40, 60, 8, 0, 77, 71, 72, 83,
      53, 0, 0, 32, 77, 71, 72, 83, 0, 0, 150, 133, 38, 1, 68, 65, 49, 0, 68, 67, 49, 0,
      2, 15, 0, 0, 0, 2, 0, 0, 0, 0]).map DLTMessage.ecuid = some "MGHS") ∧
    ((DLTMessage.from_bytes [68, 76, 84, 1, 49, 217, 80, 89, 40, 60, 8, 0, 77, 71, 72, 83,
      53, 0, 0, 32, 77, 71, 72, 83, 0, 0, 150, 133, 38, 1, 68, 65, 49, 0, 68, 67, 49, 0,
      2, 15, 0, 0, 0, 2, 0, 0, 0, 0]).map DLTMessage.tmsp = some (3.8533 : ℚ)) ∧
    ((DLTMessage.from_bytes [68, 76, 84, 1, 49, 217, 80, 89, 40, 60, 8, 0, 77, 71, 72, 83,
      53, 0, 0, 32, 77, 71, 72, 83, 0, 0, 150, 133, 38, 1, 68, 65, 49, 0, 68, 67, 49, 0,
      2, 15, 0, 0, 0, 2, 0, 0, 0, 0]).map DLTMessage.storage_timestamp =
      some (some (1498470705.539688 : ℚ))) ∧
    ((DLTMessage.from_bytes [68, 76, 84, 1, 49, 217, 80, 89, 40, 60, 8, 0, 77, 71, 72, 83,
      53, 0, 0, 32, 77, 71, 72, 83, 0, 0, 150, 133, 38, 1, 68, 65, 49, 0, 68, 67, 49, 0,
      2, 15, 0, 0, 0, 2, 0, 0, 0, 0]).map payload_decoded =
      some (some (.text "[connection_info ok] connected "))) := by
  refine ⟨by decide, by decide, by decide, ?_, ?_, by decide⟩
  · have h : (DLTMessage.from_bytes [68, 76, 84, 1, 49, 217, 80, 89, 40, 60, 8, 0,
        77, 71, 72, 83, 53, 0, 0, 32, 77, 71, 72, 83, 0, 0, 150, 133, 38, 1, 68, 65, 49, 0,
        68, 67, 49, 0, 2, 15, 0, 0, 0, 2, 0, 0, 0, 0]).map DLTMessage.tmsp =
        some ((38533 : ℚ) / 10000) := rfl
    rw [h]
    norm_num
  · have h : (DLTMessage.from_bytes [68, 76, 84, 1, 49, 217, 80, 89, 40, 60, 8, 0,
        77, 71, 72, 83, 53, 0, 0, 32, 77, 71, 72, 83, 0, 0, 150, 133, 38, 1, 68, 65, 49, 0,
        68, 67, 49, 0, 2, 15, 0, 0, 0, 2, 0, 0, 0, 0]).map DLTMessage.storage_timestamp =
        some (some ((1498470705 : ℚ) + (539688 : ℚ) / 10 ^ 6)) := rfl
    rw [h]
    norm_num

/-- Counterexample for C7 as frozen: the decoded payload of the same frame is
not the claimed string without the trailing space. -/
theorem claim_C7_counterexample :
    (DLTMessage.from_bytes [68, 76, 84, 1, 49, 217, 80, 89, 40, 60, 8, 0, 77, 71, 72, 83,
      53, 0, 0, 32, 77, 71, 72, 83, 0, 0, 150, 133, 38, 1, 68, 65, 49, 0, 68, 67, 49, 0,
      2, 15, 0, 0, 0, 2, 0, 0, 0, 0]).map payload_decoded ≠
      some (some (.text "[connection_info ok] connected")) := by decide

/-- Constant DLT_TYPE_INFO_TYLE from dlt/core/core_base.py. -/
def DLT_TYPE_INFO_TYLE : Nat := 0x0000000F

/-- Constant DLT_TYPE_INFO_SINT from dlt/core/core_base.py. -/
def DLT_TYPE_INFO_SINT : Nat := 0x00000020

/-- Constant DLT_TYPE_INFO_UINT from dlt/core/core_base.py. -/
def DLT_TYPE_INFO_UINT : Nat := 0x00000040

/-- Constant DLT_TYPE_INFO_STRG from dlt/core/core_base.py. -/
def DLT_TYPE_INFO_STRG : Nat := 0x00000200

/-- Constant DLT_TYPE_INFO_RAWD from dlt/core/core_base.py. -/
def DLT_TYPE_INFO_RAWD : Nat := 0x00000400

/-- Constant DLT_TYPE_INFO_VARI from dlt/core/core_base.py. -/
def DLT_TYPE_INFO_VARI : Nat := 0x00000800

/-- Constant DLT_TYPE_INFO_SCOD from dlt/core/core_base.py. -/
def DLT_TYPE_INFO_SCOD : Nat := 0x00038000

/-- Constant DLT_SCOD_ASCII from dlt/core/core_base.py. -/
def DLT_SCOD_ASCII : Nat := 0x00000000

/-- Constant DLT_SCOD_UTF8 from dlt/core/core_base.py. -/
def DLT_SCOD_UTF8 : Nat := 0x00008000

/-- Length code DLT_TYLE_8BIT. -/
def DLT_TYLE_8BIT : Nat := 1

/-- Length code DLT_TYLE_16BIT. -/
def DLT_TYLE_16BIT : Nat := 2

/-- Length code DLT_TYLE_32BIT. -/
def DLT_TYLE_32BIT : Nat := 3

/-- Length code DLT_TYLE_64BIT. -/
def DLT_TYLE_64BIT : Nat := 4

/-- Length code DLT_TYLE_128BIT. -/
def DLT_TYLE_128BIT : Nat := 5

/-- Parsed payload argument values (Payload._parse_payload appends Python
ints, bytes, None, or the literal string "ERROR"). -/
inductive PayloadItem where
  | uintval : Nat → PayloadItem
  | sintval : Int → PayloadItem
  | strval : List Nat → PayloadItem
  | rawval : List Nat → PayloadItem
  | noneval : PayloadItem
  | errval : PayloadItem
  deriving Repr, DecidableEq

/-- Exceptions Payload._parse_payload can raise: TypeError for 128-bit
integer length codes, struct.error when unpack_from runs past the buffer. -/
inductive PayloadError where
  | typeError : PayloadError
  | structError : PayloadError
  deriving Repr, DecidableEq

deriving instance DecidableEq for Except

/-- Read of struct.unpack_from for an n-byte little-endian unsigned field:
fails with struct.error when fewer than n bytes remain at the offset. -/
def unpackFrom (n : Nat) (buf : List Nat) (offset : Nat) : Except PayloadError Nat :=
  if offset + n ≤ buf.length then Except.ok (leVal (slice buf offset n))
  else Except.error PayloadError.structError

/-- Body of one iteration of Payload._parse_payload (dlt/dlt.py), translated
branch by branch: a 32-bit little-endian type-info word, then the string /
unsigned / signed / raw branches in source order; an unrecognised category
yields the literal ERROR value; 128-bit length codes raise TypeError; length
codes 6..15 leave value as None, as does a string coding other than ASCII or
UTF-8. Returns the parsed value and the next offset. -/
def parse_arg (buf : List Nat) (offset : Nat) : Except PayloadError (PayloadItem × Nat) := do
  let ti ← unpackFrom 4 buf offset
  let off := offset + 4
  if ti &&& DLT_TYPE_INFO_STRG ≠ 0 then
    if ti &&& DLT_TYPE_INFO_SCOD = DLT_SCOD_ASCII ∨
        ti &&& DLT_TYPE_INFO_SCOD = DLT_SCOD_UTF8 then do
      let len ← unpackFrom 2 buf off
      pure (PayloadItem.strval (slice buf (off + 2) (len - 1)), off + 2 + len)
    else pure (PayloadItem.noneval, off)
  else if ti &&& DLT_TYPE_INFO_UINT ≠ 0 then
    if ti &&& DLT_TYPE_INFO_TYLE = DLT_TYLE_8BIT then do
      let v ← unpackFrom 1 buf off
      pure (PayloadItem.uintval v, off + 1)
    else if ti &&& DLT_TYPE_INFO_TYLE = DLT_TYLE_16BIT then do
      let v ← unpackFrom 2 buf off
      pure (PayloadItem.uintval v, off + 2)
    else if ti &&& DLT_TYPE_INFO_TYLE = DLT_TYLE_32BIT then do
      let v ← unpackFrom 4 buf off
      pure (PayloadItem.uintval v, off + 4)
    else if ti &&& DLT_TYPE_INFO_TYLE = DLT_TYLE_64BIT then do
      let v ← unpackFrom 8 buf off
      pure (PayloadItem.uintval v, off + 8)
    else if ti &&& DLT_TYPE_INFO_TYLE = DLT_TYLE_128BIT then
      Except.error PayloadError.typeError
    else pure (PayloadItem.noneval, off)
  else if ti &&& DLT_TYPE_INFO_SINT ≠ 0 then
    if ti &&& DLT_TYPE_INFO_TYLE = DLT_TYLE_8BIT then do
      let v ← unpackFrom 1 buf off
      pure (PayloadItem.sintval (asSigned 8 v), off + 1)
    else if ti &&& DLT_TYPE_INFO_TYLE = DLT_TYLE_16BIT then do
      let v ← unpackFrom 2 buf off
      pure (PayloadItem.sintval (asSigned 16 v), off + 2)
    else if ti &&& DLT_TYPE_INFO_TYLE = DLT_TYLE_32BIT then do
      let v ← unpackFrom 4 buf off
      pure (PayloadItem.sintval (asSigned 32 v), off + 4)
    else if ti &&& DLT_TYPE_INFO_TYLE = DLT_TYLE_64BIT then do
      let v ← unpackFrom 8 buf off
      pure (PayloadItem.sintval (asSigned 64 v), off + 8)
    else if ti &&& DLT_TYPE_INFO_TYLE = DLT_TYLE_128BIT then
      Except.error PayloadError.typeError
    else pure (PayloadItem.noneval, off)
  else if ti &&& DLT_TYPE_INFO_RAWD ≠ 0 then do
    let len ← unpackFrom 2 buf off
    pure (PayloadItem.rawval (slice buf (off + 2) len), off + 2 + len)
  else pure (PayloadItem.errval, off)

/-- Loop of Payload._parse_payload over the declared number of arguments,
threading the offset; the first raised exception aborts the whole parse. -/
def parse_payload_loop (buf : List Nat) : Nat → Nat → Except PayloadError (List PayloadItem)
  | 0, _ => Except.ok []
  | noar + 1, offset => do
    let r ← parse_arg buf offset
    let rest ← parse_payload_loop buf noar r.2
    pure (r.1 :: rest)

/-- Method Payload._parse_payload (dlt/dlt.py) on a payload buffer with a
declared argument count. -/
def parse_payload (noar : Nat) (buf : List Nat) : Except PayloadError (List PayloadItem) :=
  parse_payload_loop buf noar 0

/-- Claim C3 (amended): a typed argument whose type-info word selects a
signed or unsigned integer with length code DLT_TYLE_128BIT makes
Payload._parse_payload raise TypeError, aborting the message; the literal
ERROR value is produced instead for an argument whose type-info selects none
of the string, unsigned, signed or raw categories. -/
theorem claim_C3_amended :
    (∀ (buf : List Nat) (offset ti : Nat), unpackFrom 4 buf offset = Except.ok ti →
      ti &&& DLT_TYPE_INFO_STRG = 0 →
      (ti &&& DLT_TYPE_INFO_UINT ≠ 0 ∨ ti &&& DLT_TYPE_INFO_SINT ≠ 0) →
      ti &&& DLT_TYPE_INFO_TYLE = DLT_TYLE_128BIT →
      parse_arg buf offset = Except.error PayloadError.typeError) ∧
    (∀ (buf : List Nat) (offset ti : Nat), unpackFrom 4 buf offset = Except.ok ti →
      ti &&& DLT_TYPE_INFO_STRG = 0 → ti &&& DLT_TYPE_INFO_UINT = 0 →
      ti &&& DLT_TYPE_INFO_SINT = 0 → ti &&& DLT_TYPE_INFO_RAWD = 0 →
      parse_arg buf offset = Except.ok (PayloadItem.errval, offset + 4)) := by
  constructor
  · intro buf offset ti hread hstrg hint h128
    rcases hint with huint | hsint
    · simp [parse_arg, bind, Except.bind, hread, hstrg, huint, h128, DLT_TYLE_8BIT,
        DLT_TYLE_16BIT, DLT_TYLE_32BIT, DLT_TYLE_64BIT, DLT_TYLE_128BIT]
    · by_cases huint : ti &&& DLT_TYPE_INFO_UINT = 0
      · simp [parse_arg, bind, Except.bind, hread, hstrg, huint, hsint, h128, DLT_TYLE_8BIT,
          DLT_TYLE_16BIT, DLT_TYLE_32BIT, DLT_TYLE_64BIT, DLT_TYLE_128BIT]
      · simp [parse_arg, bind, Except.bind, hread, hstrg, huint, h128, DLT_TYLE_8BIT,
          DLT_TYLE_16BIT, DLT_TYLE_32BIT, DLT_TYLE_64BIT, DLT_TYLE_128BIT]
  · intro buf offset ti hread hstrg huint hsint hrawd
    simp [parse_arg, bind, Except.bind, pure, Except.pure, hread, hstrg, huint, hsint, hrawd]

/-- Witness for C3: type-info 0x45 (unsigned, 128-bit) aborts with TypeError;
type-info 0x10 (boolean category, handled by no branch) yields ERROR. -/
theorem claim_C3_witness :
    parse_arg [69, 0, 0, 0] 0 = Except.error PayloadError.typeError ∧
    parse_arg [16, 0, 0, 0] 0 = Except.ok (PayloadItem.errval, 4) :=
  ⟨claim_C3_amended.1 [69, 0, 0, 0] 0 69 (by decide) (by decide) (by decide) (by decide),
   claim_C3_amended.2 [16, 0, 0, 0] 0 16 (by decide) (by decide) (by decide) (by decide)
     (by decide)⟩

/-- Counterexample for C3 as frozen: a one-argument verbose payload whose
type-info word is 0x45 (unsigned integer, length code 5 = 128 bit) makes the
parse raise TypeError instead of yielding the literal ERROR argument. -/
theorem claim_C3_counterexample :
    parse_payload 1 [69, 0, 0, 0] = Except.error PayloadError.typeError ∧
    parse_payload 1 [69, 0, 0, 0] ≠ Except.ok [PayloadItem.errval] := by
  constructor
  · decide
  · decide

/-- Filter key of the dispatcher's reverse index: an (apid, ctid) pair where
none is the wildcard the Python code writes as None. -/
abbrev FilterKey := Option String × Option String

/-- Reverse filter index context_map of DLTMessageDispatcherBase
(dlt/dlt_broker_handlers.py): a defaultdict mapping filter keys to the list
of subscriber queue ids, modelled as an association list in insertion order. -/
abbrev ContextMap := List (FilterKey × List Nat)

/-- Key tuple msg_ctx built in DLTMessageDispatcherBase.handle: the four
patterns (apid, ctid), (None, None), (apid, None), (None, ctid). -/
def msg_ctx (apid ctid : String) : List FilterKey :=
  [(some apid, some ctid), (none, none), (some apid, none), (none, some ctid)]

/-- Effect of context_map[apid_ctid].append(queue_id) on the index: extend
the entry in place, or create a new entry at the end (defaultdict). -/
def context_map_append (cm : ContextMap) (k : FilterKey) (qid : Nat) : ContextMap :=
  match cm with
  | [] => [(k, [qid])]
  | e :: rest => if e.1 = k then (e.1, e.2 ++ [qid]) :: rest else e :: context_map_append rest k qid

/-- Add branch of DLTMessageDispatcherBase._process_filter_queue: append the
queue id under every filter key of the subscription. -/
def process_filter_add (cm : ContextMap) (qid : Nat) (filters : List FilterKey) : ContextMap :=
  filters.foldl (fun c f => context_map_append c f qid) cm

/-- Filter normalisation of DLTContextHandler.register and
DLTBroker.add_context: omitted filters become the single pair (None, None). -/
def register_filters (filters : Option (List FilterKey)) : List FilterKey :=
  filters.getD [(none, none)]

/-- Queue id qid is registered in the index under key k. -/
def registeredUnder (cm : ContextMap) (k : FilterKey) (qid : Nat) : Prop :=
  ∃ e ∈ cm, e.1 = k ∧ qid ∈ e.2

/-- Queue ids to which DLTMessageDispatcherBase.handle enqueues the message:
for every index entry whose key is among the four msg_ctx patterns, every
queue id mapped there; nothing when is_valid_message rejected the message. -/
def handle_puts (cm : ContextMap) (valid : Bool) (apid ctid : String) : List Nat :=
  match valid with
  | true => (cm.filter (fun e => decide (e.1 ∈ msg_ctx apid ctid))).flatMap (fun e => e.2)
  | false => []

theorem registeredUnder_append_self (cm : ContextMap) (k : FilterKey) (qid : Nat) :
    registeredUnder (context_map_append cm k qid) k qid := by
  induction cm with
  | nil => exact ⟨(k, [qid]), by simp [context_map_append]⟩
  | cons e rest ih =>
    unfold context_map_append
    by_cases he : e.1 = k
    · exact ⟨(e.1, e.2 ++ [qid]), by simp [he], he, by simp⟩
    · rw [if_neg he]
      obtain ⟨f, hf, hfk, hfq⟩ := ih
      exact ⟨f, by simp [hf], hfk, hfq⟩

/-- Claim C4: dispatcher matching rule. A valid message with ids (A, C) is
enqueued for a queue id exactly when that id is registered under one of the
four keys (A, C), (A, None), (None, C), (None, None) (and never when the
message is invalid); registering an empty filter list leaves the index
unchanged, so a fresh queue id receives nothing; omitted filters normalise to
the single pair (None, None), under which the queue id receives every valid
message. -/
theorem claim_C4_dispatcher_matching :
    (∀ (cm : ContextMap) (valid : Bool) (apid ctid : String) (qid : Nat),
      qid ∈ handle_puts cm valid apid ctid ↔
        (valid = true ∧ ∃ k, k ∈ msg_ctx apid ctid ∧ registeredUnder cm k qid)) ∧
    (∀ (cm : ContextMap) (qid : Nat) (apid ctid : String),
      (∀ e ∈ cm, qid ∉ e.2) →
      qid ∉ handle_puts (process_filter_add cm qid []) true apid ctid) ∧
    register_filters none = [(none, none)] ∧
    (∀ (cm : ContextMap) (qid : Nat) (apid ctid : String),
      qid ∈ handle_puts (process_filter_add cm qid (register_filters none)) true apid ctid) := by
  have hmain : ∀ (cm : ContextMap) (valid : Bool) (apid ctid : String) (qid : Nat),
      qid ∈ handle_puts cm valid apid ctid ↔
        (valid = true ∧ ∃ k, k ∈ msg_ctx apid ctid ∧ registeredUnder cm k qid) := by
    intro cm valid apid ctid qid
    cases valid with
    | false => simp [handle_puts]
    | true =>
      simp only [handle_puts, List.mem_flatMap, List.mem_filter,
        registeredUnder, decide_eq_true_eq, true_and]
      constructor
      · rintro ⟨e, ⟨he, hek⟩, hq⟩
        exact ⟨e.1, hek, e, he, rfl, hq⟩
      · rintro ⟨k, hk, e, he, hek, hq⟩
        exact ⟨e, ⟨he, hek ▸ hk⟩, hq⟩
  refine ⟨hmain, ?_, rfl, ?_⟩
  · intro cm qid apid ctid hfresh
    rw [hmain]
    rintro ⟨-, k, -, e, he, -, hq⟩
    exact hfresh e (by simpa [process_filter_add] using he) hq
  · intro cm qid apid ctid
    rw [hmain]
    refine ⟨rfl, (none, none), by simp [msg_ctx], ?_⟩
    simpa [process_filter_add, register_filters] using
      registeredUnder_append_self cm (none, none) qid

/-- Witness for C4: in the index where queue 7 is registered under
(SYS, JOUR) and queue 9 under the wildcard pair, a valid SYS/JOUR message is
enqueued for queue 7, and a fresh queue 5 with an empty filter list receives
nothing. -/
theorem claim_C4_witness :
    (7 ∈ handle_puts [((some "SYS", some "JOUR"), [7]), ((none, none), [9])] true "SYS" "JOUR" ↔
      (true = true ∧ ∃ k, k ∈ msg_ctx "SYS" "JOUR" ∧
        registeredUnder [((some "SYS", some "JOUR"), [7]), ((none, none), [9])] k 7)) ∧
    5 ∉ handle_puts (process_filter_add [((some "SYS", some "JOUR"), [7])] 5 []) true "A" "B" :=
  ⟨claim_C4_dispatcher_matching.1 [((some "SYS", some "JOUR"), [7]), ((none, none), [9])]
      true "SYS" "JOUR" 7,
   claim_C4_dispatcher_matching.2.1 [((some "SYS", some "JOUR"), [7])] 5 "A" "B"
     (by decide)⟩

/-- Validity check DLTMessageHandler.is_valid_message
(dlt/dlt_broker_handlers.py): the socket-source dispatcher accepts a message
only when it exists and has a non-empty apid or a non-empty ctid. -/
def DLTMessageHandler_is_valid_message (m : Option DLTMessage) : Bool :=
  match m with
  | none => false
  | some msg => msg.apid != "" || msg.ctid != ""

/-- Validity check DLTFileSpinner.is_valid_message
(dlt/dlt_broker_handlers.py): the file-source dispatcher accepts every
non-None message. -/
def DLTFileSpinner_is_valid_message (m : Option DLTMessage) : Bool := m.isSome

/-- Claim C5: source asymmetry for empty ids. A received message whose apid
and ctid are both empty is rejected by the socket-source validity check and
accepted by the file-source validity check. -/
theorem claim_C5_source_asymmetry (m : DLTMessage) (ha : m.apid = "") (hc : m.ctid = "") :
    DLTMessageHandler_is_valid_message (some m) = false ∧
    DLTFileSpinner_is_valid_message (some m) = true := by
  constructor
  · simp [DLTMessageHandler_is_valid_message, ha, hc]
  · rfl

/-- Witness for C5: a message without an extended header has empty apid and
ctid; the socket check rejects it and the file check accepts it. -/
theorem claim_C5_witness :
    (mkMessage []).apid = "" ∧ (mkMessage []).ctid = "" ∧
    DLTMessageHandler_is_valid_message (some (mkMessage [])) = false ∧
    DLTFileSpinner_is_valid_message (some (mkMessage [])) = true :=
  ⟨by decide, by decide,
   (claim_C5_source_asymmetry (mkMessage []) (by decide) (by decide)).1,
   (claim_C5_source_asymmetry (mkMessage []) (by decide) (by decide)).2⟩

/-- Message view consumed by ContinuousnessChecker (dlt/helpers.py): the
checker reads only apid, ctid, seid and mcnt from the message. -/
structure CheckerMsg where
  apid : String
  ctid : String
  seid : Nat
  mcnt : Nat
  deriving Repr, DecidableEq

/-- Ignore list _ignore of ContinuousnessChecker: the control stream key. -/
def checker_ignore : List String := ["DA1-DC1-0"]

/-- Key "apid-ctid-seid" built by ContinuousnessChecker.__call__. -/
def checker_key (m : CheckerMsg) : String :=
  m.apid ++ "-" ++ m.ctid ++ "-" ++ toString m.seid

/-- State of a ContinuousnessChecker: the running index and the per-key last
message counter (a dict, modelled as an association list). -/
structure CheckerState where
  index : Nat
  counter : List (String × Nat)
  deriving Repr, DecidableEq

/-- Update-or-insert of the Python dict assignment counter[key] = value. -/
def counter_update (c : List (String × Nat)) (k : String) (v : Nat) : List (String × Nat) :=
  match c with
  | [] => [(k, v)]
  | e :: rest => if e.1 = k then (k, v) :: rest else e :: counter_update rest k v

/-- Exception ContinuousnessChecker raises on a counter gap. -/
inductive CheckerError where
  | missingMessage : CheckerError
  deriving Repr, DecidableEq

/-- Method ContinuousnessChecker.__call__ (dlt/helpers.py): increment the
index; ignore keys in the ignore list; for a known key require the stored
counter plus 1 modulo 256 to equal the message counter, raising RuntimeError
otherwise; record the message counter for the key. -/
def checker_call (st : CheckerState) (m : CheckerMsg) : Except CheckerError CheckerState :=
  let key := checker_key m
  let idx := st.index + 1
  if key ∈ checker_ignore then Except.ok { st with index := idx }
  else
    match st.counter.lookup key with
    | some prev =>
      if ¬ ((prev + 1) % 256 = m.mcnt) then Except.error CheckerError.missingMessage
      else Except.ok { index := idx, counter := counter_update st.counter key m.mcnt }
    | none => Except.ok { index := idx, counter := counter_update st.counter key m.mcnt }

/-- Run of a ContinuousnessChecker over a message stream; the first raised
exception aborts the run. -/
def checker_run : CheckerState → List CheckerMsg → Except CheckerError CheckerState
  | st, [] => Except.ok st
  | st, m :: rest => do
    let st2 ← checker_call st m
    checker_run st2 rest

/-- Claim C8: a call raises exactly when the key is not DA1-DC1-0, a previous
counter was recorded for the key, and previous-plus-1 mod 256 differs from
the message counter; on the key X-Y-99 the mcnt sequence 254, 255, 0, 1
passes and the sequence 230, 231, 0 raises. -/
theorem claim_C8_continuity :
    (∀ (st : CheckerState) (m : CheckerMsg),
      (∃ e, checker_call st m = Except.error e) ↔
        (checker_key m ≠ "DA1-DC1-0" ∧
          ∃ prev, st.counter.lookup (checker_key m) = some prev ∧
            (prev + 1) % 256 ≠ m.mcnt)) ∧
    checker_run { index := 0, counter := [] }
      [⟨"X", "Y", 99, 254⟩, ⟨"X", "Y", 99, 255⟩, ⟨"X", "Y", 99, 0⟩, ⟨"X", "Y", 99, 1⟩] =
      Except.ok { index := 4, counter := [("X-Y-99", 1)] } ∧
    checker_run { index := 0, counter := [] }
      [⟨"X", "Y", 99, 230⟩, ⟨"X", "Y", 99, 231⟩, ⟨"X", "Y", 99, 0⟩] =
      Except.error CheckerError.missingMessage := by
  refine ⟨?_, by decide, by decide⟩
  intro st m
  unfold checker_call
  by_cases hk : checker_key m ∈ checker_ignore
  · have hkey : checker_key m = "DA1-DC1-0" := by simpa [checker_ignore] using hk
    simp [hk, hkey, checker_ignore]
  · have hkey : checker_key m ≠ "DA1-DC1-0" := by simpa [checker_ignore] using hk
    rw [if_neg hk]
    cases hl : st.counter.lookup (checker_key m) with
    | none => simp [hkey, hl]
    | some prev =>
      by_cases hm : (prev + 1) % 256 = m.mcnt
      · simp [hm, hkey, hl]
      · constructor
        · intro _
          exact ⟨by simpa using hkey, prev, rfl, hm⟩
        · intro _
          exact ⟨CheckerError.missingMessage, by simp [hm]⟩

/-- Outcome sentinel of the filter-ack machinery: queue.Empty raised by
Queue.get on timeout. -/
inductive FilterAckError where
  | emptyError : FilterAckError
  deriving Repr, DecidableEq

/-- Method DLTBroker._recv_filter_set_ack (dlt/dlt_broker.py). The ack value
produced within the timeout is an input (none models a timeout, i.e. the
queue raised Empty): a received value yields true when it matches the
required response and false otherwise; a timeout returns none when
ignore_filter_set_ack_timeout is set and re-raises queue.Empty otherwise. -/
def recv_filter_set_ack (ignore_timeout : Bool) (got : Option Bool) (required : Bool) :
    Except FilterAckError (Option Bool) :=
  match got with
  | some resp => if resp = required then Except.ok (some true) else Except.ok (some false)
  | none => if ignore_timeout then Except.ok none else Except.error FilterAckError.emptyError

/-- Result of DLTBroker.add_context: the context was registered with the
context handler, and whether the could-not-receive-ack warning was logged. -/
structure AddContextResult where
  registered : Bool
  ack_warning : Bool
  deriving Repr, DecidableEq

/-- Method DLTBroker.add_context (dlt/dlt_broker.py) with
enable_filter_set_ack: register the context queue, then wait for the ack;
a propagated queue.Empty aborts the call, while any non-true wait result
only logs a warning and the registration stands. Without the ack option the
registration happens unconditionally. -/
def add_context (enable_ack ignore_timeout : Bool) (got : Option Bool) :
    Except FilterAckError AddContextResult :=
  if enable_ack then
    match recv_filter_set_ack ignore_timeout got true with
    | Except.error e => Except.error e
    | Except.ok r => Except.ok { registered := true, ack_warning := r ≠ some true }
  else Except.ok { registered := true, ack_warning := false }

/-- Claim C9: filter-ack timeout behaviour. With acks enabled and no ack
produced within the timeout, add_context raises queue.Empty when
ignore_filter_set_ack_timeout is false; when it is true, the ack wait
returns none, the timeout is only logged, and the registration completes
without raising. -/
theorem claim_C9_ack_timeout :
    add_context true false none = Except.error FilterAckError.emptyError ∧
    recv_filter_set_ack true none true = Except.ok none ∧
    add_context true true none = Except.ok { registered := true, ack_warning := true } := by
  refine ⟨rfl, rfl, ?_⟩
  decide

/-- First index of the sync pattern DLT-0x01 inside one read chunk
(Python bytes.find over the chunk buffer; a trailing partial match is not an
occurrence). -/
def findPat : List Nat → Option Nat
  | a :: b :: c :: d :: rest =>
    if a = 68 ∧ b = 76 ∧ c = 84 ∧ d = 1 then some 0
    else (findPat (b :: c :: d :: rest)).map (fun i => i + 1)
  | _ => none

/-- Loop of cDLTFile._find_next_header (dlt/dlt.py): read 1024-byte chunks
from the current position, return the chunk-local find result offset by the
chunk start, stop at end of file; fuel makes the recursion structural. -/
def find_next_header_loop (file : List Nat) : Nat → Nat → Option Nat
  | 0, _ => none
  | fuel + 1, pos =>
    let buf := slice file pos 1024
    if buf = [] then none
    else
      match findPat buf with
      | some i => some (pos + i)
      | none => find_next_header_loop file fuel (pos + buf.length)

/-- Method cDLTFile._find_next_header (dlt/dlt.py): position of the sync
pattern found by the chunked scan at or after the given file position, none
when the scan exhausts the file. -/
def find_next_header (file : List Nat) (pos : Nat) : Option Nat :=
  find_next_header_loop file (file.length + 1) pos

/-- Modelled from the spec: the native dlt_file_read consumed by
cDLTFile.generate_index is not part of the repository sources. Per the spec,
a read at the current position succeeds when the frame starts with the
storage pattern and decodes (headers consistent, declared length inside the
file), and advances the position past the frame; any other condition is a
read error. -/
def dlt_file_read (file : List Nat) (pos : Nat) : Option Nat :=
  match DLTMessage.from_bytes (file.drop pos) with
  | some m =>
    if m.storageheader.pattern = dltPattern then some (pos + 16 + m.standardheader.len)
    else none
  | none => none

/-- Indexing state of cDLTFile (dlt/dlt.py): current file position, corrupt
message counter, number of indexed messages. -/
structure IdxState where
  file_position : Nat
  corrupt_msg_count : Nat
  counter_total : Nat
  deriving Repr, DecidableEq

/-- One outcome of the generate_index loop body: continue with a new state or
leave the read loop. -/
inductive IdxStep where
  | go : IdxState → IdxStep
  | halt : IdxStep
  deriving Repr, DecidableEq

/-- Body of the cDLTFile.generate_index while loop (dlt/dlt.py): stop when
the position reaches the file length; on a successful read advance and count
the message; on a read failure scan for the next header — a falsy result
(no find, or position 0) or a find at the current position stops the loop,
any other find jumps there and counts a corrupt frame. -/
def generate_index_step (file : List Nat) (st : IdxState) : IdxStep :=
  if st.file_position < file.length then
    match dlt_file_read file st.file_position with
    | some newpos =>
      IdxStep.go { st with file_position := newpos, counter_total := st.counter_total + 1 }
    | none =>
      match find_next_header file st.file_position with
      | some p =>
        if p = 0 then IdxStep.halt
        else if st.file_position = p then IdxStep.halt
        else IdxStep.go { st with file_position := p, corrupt_msg_count := st.corrupt_msg_count + 1 }
      | none => IdxStep.halt
  else IdxStep.halt

/-- Iterated generate_index loop with fuel (each continuing step strictly
advances the position, so file length plus one steps always suffice). -/
def generate_index_loop (file : List Nat) : Nat → IdxState → IdxState
  | 0, st => st
  | fuel + 1, st =>
    match generate_index_step file st with
    | IdxStep.go st2 => generate_index_loop file fuel st2
    | IdxStep.halt => st

/-- Method cDLTFile.generate_index (dlt/dlt.py): none models the IOError on
an empty file; otherwise run the read/index loop from position 0. -/
def generate_index (file : List Nat) : Option IdxState :=
  if file.length = 0 then none
  else some (generate_index_loop file (file.length + 1) { file_position := 0, corrupt_msg_count := 0, counter_total := 0 })

theorem findPat_spec (l : List Nat) : ∀ i : Nat, findPat l = some i →
    i + 4 ≤ l.length ∧ slice l i 4 = dltPattern := by
  induction l with
  | nil => intro i h; simp [findPat] at h
  | cons a tl ih =>
    intro i h
    match a, tl, h with
    | a, [], h => simp [findPat] at h
    | a, [b], h => simp [findPat] at h
    | a, [b, c], h => simp [findPat] at h
    | a, b :: c :: d :: rest, h =>
      rw [findPat] at h
      split at h
      case isTrue hcond =>
        obtain ⟨ha, hb, hc, hd⟩ := hcond
        injection h with hi
        subst hi
        subst ha hb hc hd
        refine ⟨by simp, ?_⟩
        simp [slice, dltPattern]
      case isFalse hcond =>
        rcases Option.map_eq_some'.mp h with ⟨j, hj, hij⟩
        obtain ⟨hlen, hsl⟩ := ih j hj
        subst hij
        refine ⟨by simpa using hlen, ?_⟩
        simpa [slice, List.drop_succ_cons] using hsl

theorem slice_slice (file : List Nat) (pos k i n : Nat) (h : i + n ≤ k) :
    slice (slice file pos k) i n = slice file (pos + i) n := by
  unfold slice
  rw [List.drop_take, List.take_take, List.drop_drop]
  have h1 : min n (k - i) = n := by omega
  have h2 : i + pos = pos + i := by omega
  rw [h1]

theorem find_next_header_loop_spec (file : List Nat) : ∀ (fuel pos p : Nat),
    find_next_header_loop file fuel pos = some p →
    pos ≤ p ∧ slice file p 4 = dltPattern := by
  intro fuel
  induction fuel with
  | zero => intro pos p h; simp [find_next_header_loop] at h
  | succ fuel ih =>
    intro pos p h
    rw [find_next_header_loop] at h
    split at h
    case isTrue => exact absurd h (by simp)
    case isFalse hne =>
      cases hf : findPat (slice file pos 1024) with
      | some i =>
        rw [hf] at h
        injection h with hp
        subst hp
        obtain ⟨hlen, hsl⟩ := findPat_spec (slice file pos 1024) i hf
        have hk : i + 4 ≤ 1024 := by
          have : (slice file pos 1024).length ≤ 1024 := by
            simp [slice]
          omega
        exact ⟨Nat.le_add_right pos i, by rw [← slice_slice file pos 1024 i 4 hk]; exact hsl⟩
      | none =>
        rw [hf] at h
        obtain ⟨hle, hsl⟩ := ih (pos + (slice file pos 1024).length) p h
        exact ⟨le_trans (Nat.le_add_right _ _) hle, hsl⟩

set_option maxRecDepth 2048 in
/-- Claim C6 (amended): corrupt-frame recovery while indexing. On a failed
frame read the reader scans forward in 1024-byte chunks: any position the
scan returns carries the sync pattern and lies at or after the current
position (a pattern straddling a chunk boundary can be missed — see the
counterexample); a scan result equal to the current position stops indexing,
any other non-zero result jumps there and increments the corrupt-frame
counter; a file of 32 junk bytes followed by three valid 48-byte frames
indexes exactly 3 messages with corrupt_msg_count 1 (hence at least 1). -/
theorem claim_C6_corrupt_recovery :
    (∀ (file : List Nat) (pos p : Nat), find_next_header file pos = some p →
      pos ≤ p ∧ slice file p 4 = dltPattern) ∧
    (∀ (file : List Nat) (st : IdxState), st.file_position < file.length →
      dlt_file_read file st.file_position = none →
      find_next_header file st.file_position = some st.file_position →
      generate_index_step file st = IdxStep.halt) ∧
    (∀ (file : List Nat) (st : IdxState) (p : Nat), st.file_position < file.length →
      dlt_file_read file st.file_position = none →
      find_next_header file st.file_position = some p → p ≠ 0 → st.file_position ≠ p →
      generate_index_step file st = IdxStep.go { st with file_position := p, corrupt_msg_count := st.corrupt_msg_count + 1 }) ∧
    generate_index (List.replicate 32 170 ++
      ([68, 76, 84, 1, 49, 217, 80, 89, 40, 60, 8, 0, 77, 71, 72, 83,
        53, 0, 0, 32, 77, 71, 72, 83, 0, 0, 150, 133, 38, 1, 68, 65, 49, 0, 68, 67, 49, 0,
        2, 15, 0, 0, 0, 2, 0, 0, 0, 0] ++
       ([68, 76, 84, 1, 49, 217, 80, 89, 40, 60, 8, 0, 77, 71, 72, 83,
        53, 0, 0, 32, 77, 71, 72, 83, 0, 0, 150, 133, 38, 1, 68, 65, 49, 0, 68, 67, 49, 0,
        2, 15, 0, 0, 0, 2, 0, 0, 0, 0] ++
        [68, 76, 84, 1, 49, 217, 80, 89, 40, 60, 8, 0, 77, 71, 72, 83,
        53, 0, 0, 32, 77, 71, 72, 83, 0, 0, 150, 133, 38, 1, 68, 65, 49, 0, 68, 67, 49, 0,
        2, 15, 0, 0, 0, 2, 0, 0, 0, 0]))) =
      some { file_position := 176, corrupt_msg_count := 1, counter_total := 3 } := by
  refine ⟨?_, ?_, ?_, by decide⟩
  · intro file pos p h
    exact find_next_header_loop_spec file (file.length + 1) pos p h
  · intro file st hlt hread hfind
    unfold generate_index_step
    rw [if_pos hlt]
    simp only [hread, hfind]
    simp
  · intro file st p hlt hread hfind hp0 hpne
    unfold generate_index_step
    rw [if_pos hlt]
    simp only [hread, hfind]
    simp [hp0, hpne]

set_option maxRecDepth 2048 in
/-- Witness for C6: on the scenario file the first read fails, the scan finds
the pattern at position 32 (at or after 0), and the step jumps there counting
one corrupt frame. -/
theorem claim_C6_witness :
    (0 ≤ 32 ∧ slice (List.replicate 32 170 ++
      ([68, 76, 84, 1, 49, 217, 80, 89, 40, 60, 8, 0, 77, 71, 72, 83,
        53, 0, 0, 32, 77, 71, 72, 83, 0, 0, 150, 133, 38, 1, 68, 65, 49, 0, 68, 67, 49, 0,
        2, 15, 0, 0, 0, 2, 0, 0, 0, 0] ++
       ([68, 76, 84, 1, 49, 217, 80, 89, 40, 60, 8, 0, 77, 71, 72, 83,
        53, 0, 0, 32, 77, 71, 72, 83, 0, 0, 150, 133, 38, 1, 68, 65, 49, 0, 68, 67, 49, 0,
        2, 15, 0, 0, 0, 2, 0, 0, 0, 0] ++
        [68, 76, 84, 1, 49, 217, 80, 89, 40, 60, 8, 0, 77, 71, 72, 83,
        53, 0, 0, 32, 77, 71, 72, 83, 0, 0, 150, 133, 38, 1, 68, 65, 49, 0, 68, 67, 49, 0,
        2, 15, 0, 0, 0, 2, 0, 0, 0, 0]))) 32 4 = dltPattern) ∧
    generate_index_step (List.replicate 32 170 ++
      ([68, 76, 84, 1, 49, 217, 80, 89, 40, 60, 8, 0, 77, 71, 72, 83,
        53, 0, 0, 32, 77, 71, 72, 83, 0, 0, 150, 133, 38, 1, 68, 65, 49, 0, 68, 67, 49, 0,
        2, 15, 0, 0, 0, 2, 0, 0, 0, 0] ++
       ([68, 76, 84, 1, 49, 217, 80, 89, 40, 60, 8, 0, 77, 71, 72, 83,
        53, 0, 0, 32, 77, 71, 72, 83, 0, 0, 150, 133, 38, 1, 68, 65, 49, 0, 68, 67, 49, 0,
        2, 15, 0, 0, 0, 2, 0, 0, 0, 0] ++
        [68, 76, 84, 1, 49, 217, 80, 89, 40, 60, 8, 0, 77, 71, 72, 83,
        53, 0, 0, 32, 77, 71, 72, 83, 0, 0, 150, 133, 38, 1, 68, 65, 49, 0, 68, 67, 49, 0,
        2, 15, 0, 0, 0, 2, 0, 0, 0, 0])))
      { file_position := 0, corrupt_msg_count := 0, counter_total := 0 } =
      IdxStep.go { file_position := 32, corrupt_msg_count := 1, counter_total := 0 } :=
  ⟨⟨Nat.zero_le 32,
    (claim_C6_corrupt_recovery.1 _ 0 32 (by decide)).2⟩,
   claim_C6_corrupt_recovery.2.2.1 _
     { file_position := 0, corrupt_msg_count := 0, counter_total := 0 } 32
     (by decide) (by decide) (by decide) (by decide) (by decide)⟩

/-- Counterexample for C6 as frozen: with the sync pattern starting at
position 1022, inside the first 1024-byte chunk but ending in the second,
the chunked scan misses it and reports no header although a next occurrence
at or after position 0 exists. -/
theorem findPat_cons_no_match (x : Nat) (l : List Nat) (hx : x ≠ 68)
    (h : findPat l = none) : findPat (x :: l) = none := by
  match l with
  | [] => rfl
  | [b] => rfl
  | [b, c] => rfl
  | b :: c :: d :: rest =>
    rw [findPat, if_neg (by simp [hx]), h]
    rfl

theorem findPat_junk_chunk : ∀ n : Nat, findPat (List.replicate n 65 ++ [68, 76]) = none := by
  intro n
  induction n with
  | zero => rfl
  | succ n ih =>
    rw [List.replicate_succ, List.cons_append]
    exact findPat_cons_no_match 65 _ (by norm_num) ih

theorem find_next_header_loop_nil (file : List Nat) (fuel pos : Nat)
    (h : slice file pos 1024 = []) : find_next_header_loop file (fuel + 1) pos = none := by
  rw [find_next_header_loop]
  simp only [h]
  simp

theorem find_next_header_loop_step (file : List Nat) (fuel pos : Nat) (buf : List Nat)
    (hbuf : slice file pos 1024 = buf) (hne : ¬ buf = []) (hfp : findPat buf = none) :
    find_next_header_loop file (fuel + 1) pos =
      find_next_header_loop file fuel (pos + buf.length) := by
  rw [find_next_header_loop]
  simp only [hbuf]
  rw [if_neg hne, hfp]

theorem claim_C6_counterexample :
    slice (List.replicate 1022 65 ++ dltPattern) 1022 4 = dltPattern ∧
    find_next_header (List.replicate 1022 65 ++ dltPattern) 0 = none := by
  have hlen : (List.replicate 1022 65 ++ dltPattern).length = 1026 := by
    rw [List.length_append, List.length_replicate]
    rfl
  have hbuf1 : slice (List.replicate 1022 65 ++ dltPattern) 0 1024 =
      List.replicate 1022 65 ++ [68, 76] := by
    unfold slice
    rw [List.drop_zero, List.take_append_eq_append_take, List.take_replicate,
      List.length_replicate]
    rw [show min 1024 1022 = 1022 by norm_num]
    rw [show (1024 - 1022 : Nat) = 2 by norm_num]
    rw [show List.take 2 dltPattern = [68, 76] from rfl]
  have hbuf2 : slice (List.replicate 1022 65 ++ dltPattern) 1024 1024 = [84, 1] := by
    unfold slice
    rw [List.drop_append_eq_append_drop, List.drop_replicate, List.length_replicate]
    rw [show (1022 - 1024 : Nat) = 0 by norm_num]
    rw [show (1024 - 1022 : Nat) = 2 by norm_num]
    rw [show List.drop 2 dltPattern = [84, 1] from rfl]
    rfl
  have hbuf3 : slice (List.replicate 1022 65 ++ dltPattern) 1026 1024 = [] := by
    unfold slice
    rw [List.drop_eq_nil_of_le (le_of_eq hlen)]
    rfl
  constructor
  · unfold slice
    rw [List.drop_append_eq_append_drop, List.drop_replicate, List.length_replicate]
    rw [show (1022 - 1022 : Nat) = 0 by norm_num]
    rfl
  · unfold find_next_header
    rw [hlen]
    rw [find_next_header_loop_step (List.replicate 1022 65 ++ dltPattern) 1026 0
      (List.replicate 1022 65 ++ [68, 76]) hbuf1
      (by
        intro hc
        have hl := congrArg List.length hc
        rw [List.length_append, List.length_replicate] at hl
        simp at hl)
      (findPat_junk_chunk 1022)]
    rw [List.length_append, List.length_replicate]
    norm_num
    rw [show (1026 : Nat) = 1025 + 1 from rfl]
    rw [find_next_header_loop_step (List.replicate 1022 65 ++ dltPattern) 1025 1024
      [84, 1] hbuf2 (by simp) rfl]
    rw [show 1024 + ([84, 1] : List Nat).length = 1026 from rfl]
    rw [show (1025 : Nat) = 1024 + 1 from rfl]
    exact find_next_header_loop_nil (List.replicate 1022 65 ++ dltPattern) 1024 1026 hbuf3

end PyDlt
